import Mathlib

/-!
Shallow embedding of the Hardware Inventory Scanner: the FastAPI backend
in `src/backend/main.py` and the interactive tool in `src/app.py`.

JSON objects returned by the external vision model are modelled as
association lists from field names to string values; the in-memory
`sessions` dict is an association list from session identifiers to
sessions.  External effects enter as explicit parameters: the outcome of
the single outbound Groq call (including JSON parsing) is an
`Except String Obj`, and clock readings are passed in as strings.
-/

namespace HWScan

/-- A JSON object with string values, modelling the dicts the code manipulates. -/
abbrev Obj := List (String × String)

/-- First-match lookup in an association list, modelling Python `d[k]` and `k in d`. -/
def dictFind {α : Type} : List (String × α) → String → Option α
  | [], _ => none
  | (k, v) :: rest, key => if k = key then some v else dictFind rest key

/-- Python `d[k] = v`: replace the value at `k` in place, or append the binding. -/
def dictSet {α : Type} : List (String × α) → String → α → List (String × α)
  | [], key, v => [(key, v)]
  | (k, w) :: rest, key, v =>
      if k = key then (key, v) :: rest else (k, w) :: dictSet rest key v

/-- Python `del d[k]` (in a dict the key occurs at most once). -/
def dictErase {α : Type} : List (String × α) → String → List (String × α)
  | [], _ => []
  | (k, w) :: rest, key => if k = key then rest else (k, w) :: dictErase rest key

/-- Python `d.get(k, default)` for string-valued dicts. -/
def objGet (o : Obj) (key dflt : String) : String :=
  (dictFind o key).getD dflt

/-- One entry of `sessions`: `{"items": [...], "started_at": ...}`
(main.py lines 102-105 and 113-116). -/
structure Session where
  items : List Obj
  started_at : String
deriving DecidableEq

/-- The in-memory `sessions` dict (main.py line 29). -/
abbrev Store := List (String × Session)

/-- `class HardwareData(BaseModel)` (main.py lines 36-41): the pydantic model
with sentinel defaults for the four hardware fields. -/
structure HardwareData where
  capacity : String := "N/A"
  generation : String := "N/A"
  brand : String := "N/A"
  speed : String := "N/A"
  timestamp : Option String := none
deriving DecidableEq

/-- `HardwareData(**result)`: each field takes the dict value when the key is
present and its declared default otherwise (extra keys are ignored). -/
def HardwareData.ofObj (r : Obj) : HardwareData :=
  { capacity := objGet r "capacity" "N/A"
    generation := objGet r "generation" "N/A"
    brand := objGet r "brand" "N/A"
    speed := objGet r "speed" "N/A"
    timestamp := dictFind r "timestamp" }

/-- `class ProcessResponse(BaseModel)` (main.py lines 43-47). -/
structure ProcessResponse where
  success : Bool
  data : Option HardwareData := none
  error : Option String := none
  scan_count : Nat := 0
deriving DecidableEq

/-- `HTTPException(status_code=..., detail=...)`. -/
structure HTTPException where
  status : Nat
  detail : String
deriving DecidableEq

/-- `extract_hardware_info` (main.py lines 55-91).  The outbound Groq call and
the `json.loads` of its content are one external event, passed in as
`callResult`: `.ok` carries the parsed JSON object, `.error` the exception
text of any auth, network or JSON-parse failure.  A missing API key raises a
500 before the call; any exception in the try block is re-raised as a 500
carrying `str(e)`. -/
def extract_hardware_info (apiKey : Option String) (callResult : Except String Obj) :
    Except HTTPException Obj :=
  match apiKey with
  | none => .error ⟨500, "GROQ_API_KEY not configured"⟩
  | some _ =>
    match callResult with
    | .ok r => .ok r
    | .error e => .error ⟨500, e⟩

/-- The auto-create step of `process_image` (main.py lines 111-116). -/
def ensure_session (st : Store) (sid : String) (nowIso : String) : Store :=
  match dictFind st sid with
  | some _ => st
  | none => dictSet st sid { items := [], started_at := nowIso }

/-- `process_image` (main.py lines 108-136).  `nowIso` models
`datetime.now().isoformat()` used for `started_at`; `nowFmt` models the
formatted timestamp stamped onto the extraction result.  Returns the HTTP
response together with the session store after the request. -/
def process_image (st : Store) (sid : String) (apiKey : Option String)
    (callResult : Except String Obj) (nowIso nowFmt : String) :
    ProcessResponse × Store :=
  let st1 := ensure_session st sid nowIso
  match extract_hardware_info apiKey callResult with
  | .error e => ({ success := false, error := some e.detail }, st1)
  | .ok result =>
    let result1 := dictSet result "timestamp" nowFmt
    match dictFind st1 sid with
    | some sess =>
      let sess1 : Session := { sess with items := sess.items ++ [result1] }
      let st2 := dictSet st1 sid sess1
      ({ success := true, data := some (HardwareData.ofObj result1),
         scan_count := sess1.items.length }, st2)
    | none =>
      -- unreachable: `ensure_session` guarantees the key is present
      ({ success := false, error := some "KeyError" }, st1)

/-- The JSON body returned by `get_session` (main.py lines 144-150). -/
structure SessionView where
  session_id : String
  items : List Obj
  scan_count : Nat
  started_at : String
deriving DecidableEq

/-- `get_session` (main.py lines 138-150): read-only; 404 when the identifier
is unknown.  The second component is the store after the request. -/
def get_session (st : Store) (sid : String) :
    Except HTTPException SessionView × Store :=
  (match dictFind st sid with
   | none => .error ⟨404, "Session not found"⟩
   | some s => .ok ⟨sid, s.items, s.items.length, s.started_at⟩, st)

/-- The fixed header row (main.py line 170). -/
def export_headers : List String :=
  ["#", "Brand", "Capacity", "Generation", "Speed (MHz)", "Scanned At"]

/-- One data row of the export (main.py lines 176-182): the 1-based index in
column 1 and `item.get(field, "N/A")` in the remaining columns. -/
def export_row (idx : Nat) (item : Obj) : List String :=
  [toString idx, objGet item "brand" "N/A", objGet item "capacity" "N/A",
   objGet item "generation" "N/A", objGet item "speed" "N/A",
   objGet item "timestamp" "N/A"]

/-- `for idx, item in enumerate(items, 1)`: one row per item, index starting
at `idx`. -/
def export_rows (idx : Nat) : List Obj → List (List String)
  | [] => []
  | item :: rest => export_row idx item :: export_rows (idx + 1) rest

/-- The produced workbook: `openpyxl.Workbook()` holds a single active sheet,
retitled and filled row by row (main.py lines 165-182). -/
structure Spreadsheet where
  sheet_title : String
  rows : List (List String)
deriving DecidableEq

/-- `export_session` (main.py lines 152-208): 404 when the session is missing,
400 when it has no items, otherwise the single-sheet workbook with the header
row followed by one row per scan record.  The second component is the store
after the request. -/
def export_session (st : Store) (sid : String) :
    Except HTTPException Spreadsheet × Store :=
  (match dictFind st sid with
   | none => .error ⟨404, "Session not found"⟩
   | some s =>
     if s.items = [] then .error ⟨400, "No items to export"⟩
     else .ok ⟨"Hardware Inventory", export_headers :: export_rows 1 s.items⟩, st)

/-- The JSON body returned by `end_session` (main.py line 215). -/
structure EndResponse where
  message : String
  session_id : String
deriving DecidableEq

/-- `end_session` (main.py lines 210-215): delete the session when present,
report success either way. -/
def end_session (st : Store) (sid : String) : EndResponse × Store :=
  (⟨"Session ended", sid⟩,
   match dictFind st sid with
   | some _ => dictErase st sid
   | none => st)

/-- `process_vision_data` (app.py lines 125-162): the interactive tool returns
the parsed JSON object, or an `{"error": str(e)}` object when the call or the
parse raises. -/
def process_vision_data (callResult : Except String Obj) : Obj :=
  match callResult with
  | .ok r => r
  | .error e => [("error", e)]

/-! ### Association-list lemmas -/

theorem dictFind_set_self {α : Type} (l : List (String × α)) (k : String) (v : α) :
    dictFind (dictSet l k v) k = some v := by
  induction l with
  | nil => simp [dictSet, dictFind]
  | cons hd tl ih =>
    obtain ⟨k1, w⟩ := hd
    by_cases h : k1 = k <;> simp [dictSet, dictFind, h, ih]

theorem dictFind_set_ne {α : Type} (l : List (String × α)) {k t : String} (v : α)
    (h : t ≠ k) : dictFind (dictSet l k v) t = dictFind l t := by
  induction l with
  | nil => simp [dictSet, dictFind, Ne.symm h]
  | cons hd tl ih =>
    obtain ⟨k1, w⟩ := hd
    by_cases h1 : k1 = k
    · subst h1
      simp [dictSet, dictFind, Ne.symm h]
    · simp [dictSet, dictFind, h1, ih]

theorem dictFind_erase_ne {α : Type} (l : List (String × α)) {k t : String}
    (h : t ≠ k) : dictFind (dictErase l k) t = dictFind l t := by
  induction l with
  | nil => simp [dictErase]
  | cons hd tl ih =>
    obtain ⟨k1, w⟩ := hd
    by_cases h1 : k1 = k
    · subst h1
      simp [dictErase, dictFind, Ne.symm h]
    · simp [dictErase, dictFind, h1, ih]

theorem ensure_session_of_mem (st : Store) (sid nowIso : String) (s : Session)
    (h : dictFind st sid = some s) : ensure_session st sid nowIso = st := by
  unfold ensure_session
  rw [h]

theorem ensure_session_find_ne (st : Store) {sid other : String} (nowIso : String)
    (h : other ≠ sid) :
    dictFind (ensure_session st sid nowIso) other = dictFind st other := by
  unfold ensure_session
  cases dictFind st sid with
  | some s => rfl
  | none => exact dictFind_set_ne st _ h

theorem process_image_frame (st : Store) {sid other : String} (apiKey : Option String)
    (callResult : Except String Obj) (nowIso nowFmt : String) (h : other ≠ sid) :
    dictFind (process_image st sid apiKey callResult nowIso nowFmt).2 other =
      dictFind st other := by
  unfold process_image
  cases extract_hardware_info apiKey callResult with
  | error e => exact ensure_session_find_ne st nowIso h
  | ok result =>
    simp only
    cases dictFind (ensure_session st sid nowIso) sid with
    | some sess =>
      simp only
      rw [dictFind_set_ne _ _ h]
      exact ensure_session_find_ne st nowIso h
    | none => exact ensure_session_find_ne st nowIso h

theorem export_rows_length (idx : Nat) (l : List Obj) :
    (export_rows idx l).length = l.length := by
  induction l generalizing idx with
  | nil => rfl
  | cons hd tl ih => simp [export_rows, ih]

theorem export_rows_getElem (l : List Obj) :
    ∀ (idx i : Nat) (hi : i < l.length),
      (export_rows idx l)[i]? = some (export_row (idx + i) (l.get ⟨i, hi⟩)) := by
  induction l with
  | nil => intro idx i hi; cases hi
  | cons hd tl ih =>
    intro idx i hi
    cases i with
    | zero => simp [export_rows]
    | succ j =>
      have hj : j < tl.length := Nat.lt_of_succ_lt_succ hi
      have := ih (idx + 1) j hj
      simp only [export_rows, List.getElem?_cons_succ, this, List.get]
      congr 2
      omega

theorem objGet_of_none (o : Obj) (key dflt : String) (h : dictFind o key = none) :
    objGet o key dflt = dflt := by
  simp [objGet, h]

theorem ensure_session_find_isSome (st : Store) (sid nowIso : String) :
    ∃ s, dictFind (ensure_session st sid nowIso) sid = some s := by
  unfold ensure_session
  cases h : dictFind st sid with
  | some s => exact ⟨s, h⟩
  | none => exact ⟨_, dictFind_set_self st sid _⟩

theorem process_image_ok_shape (st : Store) (sid k nowIso nowFmt : String) (r : Obj) :
    ∃ sess : Session,
      dictFind (ensure_session st sid nowIso) sid = some sess ∧
      process_image st sid (some k) (.ok r) nowIso nowFmt =
        ({ success := true,
           data := some (HardwareData.ofObj (dictSet r "timestamp" nowFmt)),
           scan_count := (sess.items ++ [dictSet r "timestamp" nowFmt]).length },
         dictSet (ensure_session st sid nowIso) sid
           { sess with items := sess.items ++ [dictSet r "timestamp" nowFmt] }) := by
  obtain ⟨sess, hsess⟩ := ensure_session_find_isSome st sid nowIso
  refine ⟨sess, hsess, ?_⟩
  simp only [process_image, extract_hardware_info]
  rw [hsess]

/-! ### Claim theorems -/

/-- C1: exporting a session that holds `n ≥ 1` scan records produces the
single-sheet workbook whose row list has exactly `n + 1` entries (the fixed
header row plus one row per record), while exporting a session with zero
records is rejected with a 400 error instead of a spreadsheet. -/
theorem c1_export_row_count (st : Store) (sid : String) (s : Session)
    (hfind : dictFind st sid = some s) :
    (s.items ≠ [] →
      (export_session st sid).1 =
        .ok ⟨"Hardware Inventory", export_headers :: export_rows 1 s.items⟩ ∧
      (export_headers :: export_rows 1 s.items).length = s.items.length + 1) ∧
    (s.items = [] →
      (export_session st sid).1 = .error ⟨400, "No items to export"⟩) := by
  constructor
  · intro hne
    constructor
    · simp [export_session, hfind, hne]
    · simp [export_rows_length]
  · intro hempty
    simp [export_session, hfind, hempty]

/-- C1 witness: a one-record session exports to a two-row sheet, and an
empty session is rejected with a 400. -/
theorem c1_export_row_count_witness :
    ((export_session [("s", ⟨[[("brand", "X")]], "T"⟩)] "s").1 =
      .ok ⟨"Hardware Inventory",
        export_headers :: export_rows 1 [[("brand", "X")]]⟩ ∧
     (export_headers :: export_rows 1 [[("brand", "X")]]).length = 2) ∧
    ((export_session [("e", ⟨[], "T"⟩)] "e").1 =
      .error ⟨400, "No items to export"⟩) := by
  constructor
  · exact (c1_export_row_count [("s", ⟨[[("brand", "X")]], "T"⟩)] "s"
      ⟨[[("brand", "X")]], "T"⟩ rfl).1 (by decide)
  · exact (c1_export_row_count [("e", ⟨[], "T"⟩)] "e" ⟨[], "T"⟩ rfl).2 rfl

/-- C3: submitting an image under an identifier whose session already exists
does not recreate or reset it: the auto-create step of `process_image` leaves
the store exactly as it was, so the session keeps its item list and its
creation timestamp. -/
theorem c3_idempotent_create (st : Store) (sid nowIso : String) (s : Session)
    (h : dictFind st sid = some s) :
    ensure_session st sid nowIso = st ∧
    dictFind (ensure_session st sid nowIso) sid = some s := by
  have he := ensure_session_of_mem st sid nowIso s h
  exact ⟨he, by rw [he]; exact h⟩

/-- C3 witness: auto-create on an existing session id is the identity. -/
theorem c3_idempotent_create_witness :
    ensure_session [("s", ⟨[[("brand", "X")]], "T"⟩)] "s" "T2" =
        [("s", ⟨[[("brand", "X")]], "T"⟩)] ∧
    dictFind (ensure_session [("s", ⟨[[("brand", "X")]], "T"⟩)] "s" "T2") "s" =
        some ⟨[[("brand", "X")]], "T"⟩ :=
  c3_idempotent_create [("s", ⟨[[("brand", "X")]], "T"⟩)] "s" "T2"
    ⟨[[("brand", "X")]], "T"⟩ rfl

/-- C4: every failure of the external vision call is caught and surfaced as an
error message: the backend returns `success = false` carrying the exception
text (and the fixed message when the API key is missing), and the interactive
tool returns an `{"error": ...}` object.  The embedding performs the external
call exactly once per request, so no retry occurs. -/
theorem c4_errors_surfaced (st : Store) (sid nowIso nowFmt k e : String) :
    (process_image st sid (some k) (.error e) nowIso nowFmt).1 =
      { success := false, error := some e } ∧
    (process_image st sid none (.error e) nowIso nowFmt).1 =
      { success := false, error := some "GROQ_API_KEY not configured" } ∧
    process_vision_data (.error e) = [("error", e)] :=
  ⟨rfl, rfl, rfl⟩

/-- C5: lookup and export of an unknown session identifier both answer with a
404 error and leave the session store exactly as it was. -/
theorem c5_not_found (st : Store) (sid : String) (h : dictFind st sid = none) :
    (get_session st sid).1 = .error ⟨404, "Session not found"⟩ ∧
    (get_session st sid).2 = st ∧
    (export_session st sid).1 = .error ⟨404, "Session not found"⟩ ∧
    (export_session st sid).2 = st := by
  refine ⟨?_, rfl, ?_, rfl⟩ <;> simp [get_session, export_session, h]

/-- C5 witness: looking up or exporting a session in an empty store is a 404
and changes nothing. -/
theorem c5_not_found_witness :
    (get_session [] "s").1 = .error ⟨404, "Session not found"⟩ ∧
    (get_session [] "s").2 = [] ∧
    (export_session [] "s").1 = .error ⟨404, "Session not found"⟩ ∧
    (export_session [] "s").2 = [] :=
  c5_not_found [] "s" rfl

/-- C6: deleting a session identifier that is not in the store leaves the
store unchanged and still returns the success body naming that identifier. -/
theorem c6_delete_missing (st : Store) (sid : String)
    (h : dictFind st sid = none) :
    end_session st sid = (⟨"Session ended", sid⟩, st) := by
  unfold end_session
  rw [h]

/-- C6 witness: deleting an unknown session from a nonempty store is a no-op
that reports success. -/
theorem c6_delete_missing_witness :
    end_session [("s", ⟨[], "T"⟩)] "t" =
      (⟨"Session ended", "t"⟩, [("s", ⟨[], "T"⟩)]) :=
  c6_delete_missing [("s", ⟨[], "T"⟩)] "t" rfl

/-- C2 counterexample: after submitting one image whose extraction JSON omits
every hardware field, session lookup presents the stored record itself, in
which `brand` is absent (lookup yields `none`) rather than the sentinel
`"N/A"` the claim requires for the session-lookup surface. -/
theorem c2_lookup_field_absent :
    (get_session (process_image [] "s" (some "k") (.ok []) "T0" "T1").2 "s").1 =
      .ok ⟨"s", [[("timestamp", "T1")]], 1, "T0"⟩ ∧
    dictFind ([("timestamp", "T1")] : Obj) "brand" = none :=
  ⟨rfl, rfl⟩

/-- C2 amended: when the extraction JSON omits `brand`, `capacity`,
`generation` or `speed`, the `HardwareData` in the process-image response and
the corresponding cell of the export row both carry the sentinel `"N/A"` and
are never null or absent; session lookup, however, returns the stored records
exactly as stored, so a field the model omitted stays absent there. -/
theorem c2_sentinel_defaults (st : Store) (sid k nowIso nowFmt : String) (r : Obj) :
    (∀ s : Session, dictFind st sid = some s →
      (get_session st sid).1 = .ok ⟨sid, s.items, s.items.length, s.started_at⟩) ∧
    ∃ d : HardwareData,
      (process_image st sid (some k) (.ok r) nowIso nowFmt).1.data = some d ∧
      (dictFind r "brand" = none → d.brand = "N/A") ∧
      (dictFind r "capacity" = none → d.capacity = "N/A") ∧
      (dictFind r "generation" = none → d.generation = "N/A") ∧
      (dictFind r "speed" = none → d.speed = "N/A") ∧
      ∀ idx : Nat,
        (dictFind r "brand" = none →
          (export_row idx (dictSet r "timestamp" nowFmt))[1]? = some "N/A") ∧
        (dictFind r "capacity" = none →
          (export_row idx (dictSet r "timestamp" nowFmt))[2]? = some "N/A") ∧
        (dictFind r "generation" = none →
          (export_row idx (dictSet r "timestamp" nowFmt))[3]? = some "N/A") ∧
        (dictFind r "speed" = none →
          (export_row idx (dictSet r "timestamp" nowFmt))[4]? = some "N/A") := by
  constructor
  · intro s hs
    simp [get_session, hs]
  obtain ⟨sess, hsess, hshape⟩ := process_image_ok_shape st sid k nowIso nowFmt r
  have hset : ∀ f : String, f ≠ "timestamp" → dictFind r f = none →
      dictFind (dictSet r "timestamp" nowFmt) f = none := by
    intro f hf hnone
    rw [dictFind_set_ne r _ hf]
    exact hnone
  refine ⟨HardwareData.ofObj (dictSet r "timestamp" nowFmt), by rw [hshape],
    ?_, ?_, ?_, ?_, ?_⟩
  · intro hb
    simp [HardwareData.ofObj, objGet_of_none _ _ _ (hset "brand" (by decide) hb)]
  · intro hc
    simp [HardwareData.ofObj, objGet_of_none _ _ _ (hset "capacity" (by decide) hc)]
  · intro hg
    simp [HardwareData.ofObj, objGet_of_none _ _ _ (hset "generation" (by decide) hg)]
  · intro hs
    simp [HardwareData.ofObj, objGet_of_none _ _ _ (hset "speed" (by decide) hs)]
  · intro idx
    refine ⟨fun hb => ?_, fun hc => ?_, fun hg => ?_, fun hs => ?_⟩
    · simp [export_row, objGet_of_none _ _ _ (hset "brand" (by decide) hb)]
    · simp [export_row, objGet_of_none _ _ _ (hset "capacity" (by decide) hc)]
    · simp [export_row, objGet_of_none _ _ _ (hset "generation" (by decide) hg)]
    · simp [export_row, objGet_of_none _ _ _ (hset "speed" (by decide) hs)]

/-- C2 witness: a record with every field omitted is presented with `"N/A"`
in all four fields of the process-image response and in the export cell. -/
theorem c2_sentinel_defaults_witness :
    ∃ d : HardwareData,
      (process_image [] "s" (some "k") (.ok []) "T0" "T1").1.data = some d ∧
      d.brand = "N/A" ∧ d.capacity = "N/A" ∧ d.generation = "N/A" ∧
      d.speed = "N/A" ∧
      (export_row 1 (dictSet [] "timestamp" "T1"))[1]? = some "N/A" := by
  obtain ⟨-, d, hd, hb, hc, hg, hs, hrow⟩ :=
    c2_sentinel_defaults [] "s" "k" "T0" "T1" []
  exact ⟨d, hd, hb rfl, hc rfl, hg rfl, hs rfl, (hrow 1).1 rfl⟩

/-- C7: scan records stay in submission order: a successful submission appends
the stamped record at the end of the session's item list, session lookup
presents the list exactly as stored, and in the export the i-th record (0 ≤ i)
occupies the row right after the header, at position i + 1 of the sheet, with
data-row index i + 1. -/
theorem c7_submission_order (st : Store) (sid k nowIso nowFmt : String) (r : Obj)
    (s : Session) (h : dictFind st sid = some s) :
    dictFind (process_image st sid (some k) (.ok r) nowIso nowFmt).2 sid =
      some { s with items := s.items ++ [dictSet r "timestamp" nowFmt] } ∧
    (get_session st sid).1 = .ok ⟨sid, s.items, s.items.length, s.started_at⟩ ∧
    (s.items ≠ [] →
      (export_session st sid).1 =
        .ok ⟨"Hardware Inventory", export_headers :: export_rows 1 s.items⟩ ∧
      ∀ i (hi : i < s.items.length),
        (export_headers :: export_rows 1 s.items)[i + 1]? =
          some (export_row (i + 1) (s.items.get ⟨i, hi⟩))) := by
  obtain ⟨sess, hsess, hshape⟩ := process_image_ok_shape st sid k nowIso nowFmt r
  have hens := ensure_session_of_mem st sid nowIso s h
  rw [hens, h] at hsess
  have hsv : s = sess := Option.some.inj hsess
  rw [← hsv] at hshape
  refine ⟨?_, ?_, ?_⟩
  · rw [hshape]
    simp only
    rw [hens, dictFind_set_self]
  · simp [get_session, h]
  · intro hne
    refine ⟨by simp [export_session, h, hne], ?_⟩
    intro i hi
    have hrow := export_rows_getElem s.items 1 i hi
    simp only [List.getElem?_cons_succ, hrow, Nat.add_comm 1 i]

/-- C7 witness: with one stored record, the export places it in sheet
position 1 (right after the header) with data-row index 1. -/
theorem c7_submission_order_witness :
    dictFind (process_image [("s", ⟨[[("brand", "X")]], "T"⟩)] "s" (some "k")
        (.ok []) "T0" "T1").2 "s" =
      some ⟨[[("brand", "X")], [("timestamp", "T1")]], "T"⟩ ∧
    (get_session [("s", ⟨[[("brand", "X")]], "T"⟩)] "s").1 =
      .ok ⟨"s", [[("brand", "X")]], 1, "T"⟩ ∧
    (export_headers :: export_rows 1 [[("brand", "X")]])[1]? =
      some (export_row 1 [("brand", "X")]) := by
  obtain ⟨h1, h2, h3⟩ := c7_submission_order [("s", ⟨[[("brand", "X")]], "T"⟩)]
    "s" "k" "T0" "T1" [] ⟨[[("brand", "X")]], "T"⟩ rfl
  exact ⟨h1, h2, ((h3 (by decide)).2 0 (by decide))⟩

/-- C8 counterexample: an errored submission to a fresh identifier is not
state-preserving: the auto-create step has already inserted an empty session
by the time the extraction failure is caught, so the store differs before
and after the failed request. -/
theorem c8_error_creates_session :
    (process_image [] "s" (some "k") (.error "boom") "T0" "T1").2 =
      [("s", ⟨[], "T0"⟩)] ∧
    ([("s", (⟨[], "T0"⟩ : Session))] : Store) ≠ [] :=
  ⟨rfl, by decide⟩

/-- C8 amended: an errored submission returns `success = false` and appends no
scan record: when the targeted session already exists, the entire store is
unchanged; when it does not, the only change is the auto-created session with
an empty item list. -/
theorem c8_error_no_append (st : Store) (sid k nowIso nowFmt e : String) :
    (process_image st sid (some k) (.error e) nowIso nowFmt).1.success = false ∧
    (∀ s : Session, dictFind st sid = some s →
      (process_image st sid (some k) (.error e) nowIso nowFmt).2 = st) ∧
    (dictFind st sid = none →
      (process_image st sid (some k) (.error e) nowIso nowFmt).2 =
        dictSet st sid { items := [], started_at := nowIso }) := by
  refine ⟨rfl, ?_, ?_⟩
  · intro s hs
    exact ensure_session_of_mem st sid nowIso s hs
  · intro hnone
    show ensure_session st sid nowIso = _
    unfold ensure_session
    rw [hnone]

/-- C8 amended witness: an errored submission to an existing empty session
fails and leaves the store exactly as it was. -/
theorem c8_error_no_append_witness :
    (process_image [("s", ⟨[], "T"⟩)] "s" (some "k")
        (.error "boom") "T0" "T1").1.success = false ∧
    (process_image [("s", ⟨[], "T"⟩)] "s" (some "k")
        (.error "boom") "T0" "T1").2 = [("s", ⟨[], "T"⟩)] := by
  obtain ⟨h1, h2, -⟩ :=
    c8_error_no_append [("s", ⟨[], "T"⟩)] "s" "k" "T0" "T1" "boom"
  exact ⟨h1, h2 ⟨[], "T"⟩ rfl⟩

/-- C9: every operation addressed to one session identifier leaves all other
sessions untouched: lookup under a different identifier returns the same
session after an image submission (any outcome, any key) or a deletion, and
session lookup and export never modify the store at all. -/
theorem c9_frame_other_sessions (st : Store) (sid other : String)
    (apiKey : Option String) (callResult : Except String Obj)
    (nowIso nowFmt : String) (h : other ≠ sid) :
    dictFind (process_image st sid apiKey callResult nowIso nowFmt).2 other =
      dictFind st other ∧
    dictFind (end_session st sid).2 other = dictFind st other ∧
    (get_session st sid).2 = st ∧
    (export_session st sid).2 = st := by
  refine ⟨process_image_frame st apiKey callResult nowIso nowFmt h, ?_, rfl, rfl⟩
  show dictFind (match dictFind st sid with
    | some _ => dictErase st sid
    | none => st) other = dictFind st other
  cases dictFind st sid with
  | some s => exact dictFind_erase_ne st h
  | none => rfl

/-- C9 witness: a submission to session `s` and a deletion of `s` both leave
session `t` exactly as it was. -/
theorem c9_frame_other_sessions_witness :
    dictFind (process_image [("t", ⟨[], "T"⟩)] "s" (some "k")
        (.ok []) "T0" "T1").2 "t" = dictFind [("t", ⟨[], "T"⟩)] "t" ∧
    dictFind (end_session [("t", ⟨[], "T"⟩)] "s").2 "t" =
      dictFind [("t", ⟨[], "T"⟩)] "t" ∧
    (get_session [("t", ⟨[], "T"⟩)] "s").2 = [("t", ⟨[], "T"⟩)] ∧
    (export_session [("t", ⟨[], "T"⟩)] "s").2 = [("t", ⟨[], "T"⟩)] :=
  c9_frame_other_sessions [("t", ⟨[], "T"⟩)] "s" "t" (some "k") (.ok [])
    "T0" "T1" (by decide)

/-- C10: a successful submission grows the targeted session's item list by
exactly one record, the response's `scan_count` equals the new length, and
session lookup reports a `scan_count` equal to the length of the item list it
returns. -/
theorem c10_scan_count (st : Store) (sid k nowIso nowFmt : String) (r : Obj)
    (s : Session) (h : dictFind st sid = some s) :
    (process_image st sid (some k) (.ok r) nowIso nowFmt).1.scan_count =
      s.items.length + 1 ∧
    ∃ s1 : Session,
      dictFind (process_image st sid (some k) (.ok r) nowIso nowFmt).2 sid =
        some s1 ∧
      s1.items.length = s.items.length + 1 ∧
      (get_session (process_image st sid (some k) (.ok r) nowIso nowFmt).2
          sid).1 = .ok ⟨sid, s1.items, s1.items.length, s1.started_at⟩ := by
  obtain ⟨sess, hsess, hshape⟩ := process_image_ok_shape st sid k nowIso nowFmt r
  have hens := ensure_session_of_mem st sid nowIso s h
  rw [hens, h] at hsess
  have hsv : s = sess := Option.some.inj hsess
  rw [← hsv] at hshape
  have hfind : dictFind (process_image st sid (some k) (.ok r) nowIso nowFmt).2
      sid = some { s with items := s.items ++ [dictSet r "timestamp" nowFmt] } := by
    rw [hshape]
    simp only
    rw [hens, dictFind_set_self]
  refine ⟨by rw [hshape]; simp, ?_⟩
  refine ⟨{ s with items := s.items ++ [dictSet r "timestamp" nowFmt] },
    hfind, by simp, ?_⟩
  simp [get_session, hfind]

/-- C10 witness: submitting to a session holding one record yields
`scan_count = 2`, and lookup afterwards reports two items. -/
theorem c10_scan_count_witness :
    (process_image [("s", ⟨[[("brand", "X")]], "T"⟩)] "s" (some "k")
        (.ok []) "T0" "T1").1.scan_count = 2 ∧
    ∃ s1 : Session,
      dictFind (process_image [("s", ⟨[[("brand", "X")]], "T"⟩)] "s" (some "k")
          (.ok []) "T0" "T1").2 "s" = some s1 ∧
      s1.items.length = 2 ∧
      (get_session (process_image [("s", ⟨[[("brand", "X")]], "T"⟩)] "s"
          (some "k") (.ok []) "T0" "T1").2 "s").1 =
        .ok ⟨"s", s1.items, s1.items.length, s1.started_at⟩ :=
  c10_scan_count [("s", ⟨[[("brand", "X")]], "T"⟩)] "s" "k" "T0" "T1" []
    ⟨[[("brand", "X")]], "T"⟩ rfl

end HWScan
